import Mathlib

/-!
Verification of the TRADE_SOURCER multi-signal conviction scoring core.

The definitions below are a shallow embedding of the Python sources:
  * `src/scoring/conviction_engine.py` (ConvictionEngine),
  * `src/signals/ftd_tracker.py` (FTDShortTracker analysis/scoring),
  * the error-handling skeletons of the six signal producers
    (`dark_pool.py`, `congress_trades.py`, `ftd_tracker.py`,
    `insider_flow.py`, `options_flow.py`, `social_sentiment.py`).

Python floats are embedded as rationals (`ℚ`); the Python `round(x, 2)`
(round-half-to-even on the second decimal) is `roundTo2`; dicts are
association lists looked up with `List.lookup`; `try/except` around the
fetch layer is a `match` on an `Except`/`Option` fetch outcome.
-/

namespace TradeSourcer

/-- A value stored in a Python `stock_data` dict: either something
`float()` converts (embedded by its rational value) or something on which
`float()` raises `TypeError`/`ValueError` (strings such as `"abc"`,
`None`, lists, ...). -/
inductive PyVal where
  | num (q : ℚ)
  | nonNum
deriving DecidableEq, Repr

/-- A `stock_data` dict: string keys to raw values. -/
abbrev StockData := List (String × PyVal)

/-- Round-half-to-even to an integer — the rounding used by the built-in
Python `round`. -/
def roundHalfEven (q : ℚ) : ℤ :=
  if q - ⌊q⌋ < 1/2 then ⌊q⌋
  else if 1/2 < q - ⌊q⌋ then ⌊q⌋ + 1
  else if ⌊q⌋ % 2 = 0 then ⌊q⌋ else ⌊q⌋ + 1

/-- The Python `round(x, 2)`. -/
def roundTo2 (q : ℚ) : ℚ := (roundHalfEven (100 * q) : ℚ) / 100

/-! ## Module-level constants of `conviction_engine.py` -/

/-- Constant `DEFAULT_WEIGHTS` — must sum to 1.0 (source order preserved). -/
def DEFAULT_WEIGHTS : List (String × ℚ) :=
  [("insider_flow", 0.20), ("dark_pool", 0.15), ("options_flow", 0.15),
   ("fundamental", 0.15), ("technical", 0.10), ("congress", 0.05),
   ("social", 0.05), ("ftd_short", 0.05), ("whale_13f", 0.05),
   ("volatility", 0.05)]

/-- Constant `WEIGHT_TO_SCORE_KEY` — config weight key to `stock_data` score key. -/
def WEIGHT_TO_SCORE_KEY : List (String × String) :=
  [("insider_flow", "insider_signal_score"), ("dark_pool", "darkpool_signal_score"),
   ("options_flow", "options_signal_score"), ("congress", "congress_signal_score"),
   ("ftd_short", "ftd_signal_score"), ("social", "social_signal_score"),
   ("technical", "technical_score"), ("fundamental", "fundamental_score"),
   ("volatility", "volatility_score"), ("whale_13f", "whale_13f_signal_score")]

/-- Constant `DEFAULT_DARK_SIGNAL_KEYS` — keys used for confluence detection. -/
def DEFAULT_DARK_SIGNAL_KEYS : List String :=
  ["insider_flow", "dark_pool", "options_flow", "congress", "ftd_short"]

def NEUTRAL_SCORE : ℚ := 50

def ACTIVE_THRESHOLD : ℚ := 60

/-- The four conviction-level string constants, as a closed enum. -/
inductive ConvictionLevel where
  | darkFlowAlert
  | strongSignal
  | singleSignal
  | technicalOnly
deriving DecidableEq, Repr

/-- The `CONFLUENCE_BONUS` dict (total on the closed enum). -/
def CONFLUENCE_BONUS : ConvictionLevel → ℚ
  | .darkFlowAlert => 15
  | .strongSignal => 8
  | .singleSignal => 0
  | .technicalOnly => 0

/-- The `POSITION_SIZE_MAP` dict: `(min_pct, max_pct)` per level. -/
def POSITION_SIZE_MAP : ConvictionLevel → ℚ × ℚ
  | .darkFlowAlert => (10, 15)
  | .strongSignal => (5, 10)
  | .singleSignal => (3, 5)
  | .technicalOnly => (0, 0)

/-- The `MAX_ALLOCATION_MAP` dict. -/
def MAX_ALLOCATION_MAP : ConvictionLevel → ℚ
  | .darkFlowAlert => 15
  | .strongSignal => 10
  | .singleSignal => 5
  | .technicalOnly => 0

/-- Result of `assess_risk`. -/
inductive RiskLevel where
  | low
  | medium
  | high
deriving DecidableEq, Repr

/-! ## ConvictionEngine construction -/

/-- The configuration keys `ConvictionEngine.__init__` reads
(`config.get(..)` with a default on every key). -/
structure Config where
  weights : Option (List (String × ℚ)) := none
  dark_signal_keys : Option (List String) := none
  dark_flow_alert_min_signals : Option ℕ := none
  strong_signal_min_signals : Option ℕ := none

/-- The dict comprehension in `_load_weights`:
`{k: raw.get(k, DEFAULT_WEIGHTS.get(k, 0.0)) for k in DEFAULT_WEIGHTS}`
(every key of `DEFAULT_WEIGHTS` is present there, so the inner default is
the default weight of that key). -/
def fill_weights (raw : List (String × ℚ)) : List (String × ℚ) :=
  DEFAULT_WEIGHTS.map fun p => (p.1, (raw.lookup p.1).getD p.2)

/-- Method `ConvictionEngine._load_weights`. -/
def load_weights (cfgWeights : Option (List (String × ℚ))) : List (String × ℚ) :=
  let raw := cfgWeights.getD DEFAULT_WEIGHTS
  let weights := fill_weights raw
  let total := (weights.map Prod.snd).sum
  if total ≤ 0 then DEFAULT_WEIGHTS
  else if 1/1000000 < |total - 1| then weights.map fun p => (p.1, p.2 / total)
  else weights

/-- The state `ConvictionEngine.__init__` ends with. -/
structure Engine where
  weights : List (String × ℚ)
  dark_signal_keys : List String
  dark_flow_min : ℕ
  strong_signal_min : ℕ
deriving DecidableEq, Repr

/-- Method `ConvictionEngine.__init__`. -/
def mkEngine (cfg : Config) : Engine :=
  { weights := load_weights cfg.weights
    dark_signal_keys := cfg.dark_signal_keys.getD DEFAULT_DARK_SIGNAL_KEYS
    dark_flow_min := cfg.dark_flow_alert_min_signals.getD 3
    strong_signal_min := cfg.strong_signal_min_signals.getD 2 }

/-- Method `ConvictionEngine()` built with no config. -/
def defaultEngine : Engine := mkEngine {}

/-! ## Core scoring -/

/-- Method `ConvictionEngine._safe_float` with its `default` argument split per
use site: `none` both for an absent key, for a stored `None`, and for a
value `float()` rejects; callers apply their own default. -/
def safe_float : Option PyVal → Option ℚ
  | some (.num q) => some q
  | some .nonNum => none
  | none => none

/-- Method `ConvictionEngine._get_signal_score`: neutral 50 when the weight key
is unknown, the score key is missing, or the value is not numeric;
otherwise the value clamped to `[0, 100]`. -/
def get_signal_score (stock_data : StockData) (weight_key : String) : ℚ :=
  match WEIGHT_TO_SCORE_KEY.lookup weight_key with
  | none => NEUTRAL_SCORE
  | some score_key =>
    match stock_data.lookup score_key with
    | none => NEUTRAL_SCORE
    | some .nonNum => NEUTRAL_SCORE
    | some (.num v) => max 0 (min 100 v)

/-- The `weighted_sum` accumulated in `calculate_conviction_score`
(unrounded scores times weights, in weight order). -/
def weighted_sum (e : Engine) (stock_data : StockData) : ℚ :=
  (e.weights.map fun p => get_signal_score stock_data p.1 * p.2).sum

/-- The `signal_scores` dict built in `calculate_conviction_score`:
each score rounded to 2 decimals, keyed by weight key. -/
def signal_scores_of (e : Engine) (stock_data : StockData) : List (String × ℚ) :=
  e.weights.map fun p => (p.1, roundTo2 (get_signal_score stock_data p.1))

/-- Method `ConvictionEngine._detect_active_dark_signals`: dark-signal keys whose
entry in `signal_scores` (default `NEUTRAL_SCORE`) is `> ACTIVE_THRESHOLD`,
in dark-key order. -/
def detect_active_dark_signals (e : Engine) (signal_scores : List (String × ℚ)) :
    List String :=
  e.dark_signal_keys.filter fun k =>
    decide (ACTIVE_THRESHOLD < (signal_scores.lookup k).getD NEUTRAL_SCORE)

/-- Method `ConvictionEngine.get_conviction_level` (the `score` argument is
unused by the source body). -/
def get_conviction_level (e : Engine) (score : ℚ) (active_signals : List String) :
    ConvictionLevel :=
  let count := active_signals.length
  if count ≥ e.dark_flow_min then .darkFlowAlert
  else if count ≥ e.strong_signal_min then .strongSignal
  else if count ≥ 1 then .singleSignal
  else .technicalOnly

/-- The `active_dark_signals` local of `calculate_conviction_score`. -/
def active_dark_signals_of (e : Engine) (stock_data : StockData) : List String :=
  detect_active_dark_signals e (signal_scores_of e stock_data)

/-- The `conviction_level` local of `calculate_conviction_score`. -/
def conviction_level_of (e : Engine) (stock_data : StockData) : ConvictionLevel :=
  get_conviction_level e (weighted_sum e stock_data) (active_dark_signals_of e stock_data)

/-- Method `ConvictionEngine._build_label`. -/
def build_label (level : ConvictionLevel) (count : ℕ) (active : List String) :
    String :=
  match level with
  | .darkFlowAlert => "Dark Flow Alert - " ++ toString count ++ " signals converging"
  | .strongSignal => "Strong Signal - " ++ String.intercalate ", " active
  | .singleSignal => "Single Signal - " ++ String.intercalate ", " active
  | .technicalOnly => "Technical Only - no dark flow signals active"

/-- The `signal_pairs` list in `assess_risk`. -/
def signal_pairs : List (String × String) :=
  [("insider_signal_score", "insider"), ("options_signal_score", "options"),
   ("darkpool_signal_score", "dark_pool"), ("congress_signal_score", "congress")]

/-- Method `ConvictionEngine.assess_risk`. -/
def assess_risk (stock_data : StockData) : RiskLevel :=
  let vol_score := (safe_float (stock_data.lookup "volatility_score")).getD NEUTRAL_SCORE
  let volPoints : ℕ := if vol_score > 70 then 2 else if vol_score > 55 then 1 else 0
  let bullish_signals := signal_pairs.filterMap fun p =>
    match safe_float (stock_data.lookup p.1) with
    | none => none
    | some v => if v > 60 then some p.2 else none
  let bearish_signals := signal_pairs.filterMap fun p =>
    match safe_float (stock_data.lookup p.1) with
    | none => none
    | some v => if v > 60 then none else if v < 40 then some p.2 else none
  let conflictPoints : ℕ :=
    if bullish_signals ≠ [] ∧ bearish_signals ≠ [] then 2 else 0
  let divergencePoints : ℕ :=
    match safe_float (stock_data.lookup "technical_score"),
          safe_float (stock_data.lookup "fundamental_score") with
    | some tech, some fund => if |tech - fund| > 30 then 1 else 0
    | _, _ => 0
  let risk_points := volPoints + conflictPoints + divergencePoints
  if risk_points ≥ 3 then .high
  else if risk_points ≥ 1 then .medium
  else .low

/-- The dict `calculate_conviction_score` returns (the `ticker` key is
added later by `score_batch` only). -/
structure Result where
  conviction_score : ℚ
  conviction_level : ConvictionLevel
  conviction_label : String
  active_dark_signals : List String
  active_dark_signal_count : ℕ
  signal_scores : List (String × ℚ)
  position_size_pct : ℚ
  max_allocation_pct : ℚ
  risk_level : RiskLevel
deriving DecidableEq, Repr

/-- Method `ConvictionEngine.calculate_conviction_score`. -/
def calculate_conviction_score (e : Engine) (stock_data : StockData) : Result :=
  { conviction_score :=
      roundTo2 (min 100 (max 0
        (weighted_sum e stock_data + CONFLUENCE_BONUS (conviction_level_of e stock_data))))
    conviction_level := conviction_level_of e stock_data
    conviction_label :=
      build_label (conviction_level_of e stock_data)
        (active_dark_signals_of e stock_data).length (active_dark_signals_of e stock_data)
    active_dark_signals := active_dark_signals_of e stock_data
    active_dark_signal_count := (active_dark_signals_of e stock_data).length
    signal_scores := signal_scores_of e stock_data
    position_size_pct := (POSITION_SIZE_MAP (conviction_level_of e stock_data)).1
    max_allocation_pct := MAX_ALLOCATION_MAP (conviction_level_of e stock_data)
    risk_level := assess_risk stock_data }

/-! ## FTDShortTracker (`src/signals/ftd_tracker.py`) — analysis core -/

namespace FTD

/-- The fields of a parsed SEC FTD row that the analysis reads
(`cusip`, `symbol`, `description`, `price` are carried by the parser but
never read by `_analyze_ftd`). -/
structure FtdRecord where
  settlement_date : String
  quantity : ℤ
deriving DecidableEq, Repr

/-- A parsed FINRA short-volume row. -/
structure ShortRecord where
  date : String
  short_volume : ℤ
  short_exempt_volume : ℤ
  total_volume : ℤ
deriving DecidableEq, Repr

/-- The trend strings `"increasing"`, `"decreasing"`, `"stable"` and the
`"neutral"` placeholder used by `_analyze_short_interest` on empty data. -/
inductive Trend where
  | increasing
  | decreasing
  | stable
  | neutral
deriving DecidableEq, Repr

/-- Constant `THRESHOLD_LIST_DAYS = 13`. -/
def THRESHOLD_LIST_DAYS : ℕ := 13

/-- Method `FTDShortTracker._compute_trend_from_values`. -/
def compute_trend_from_values (values : List ℚ) : Trend :=
  if values.length < 2 then .stable
  else
    let mid := values.length / 2
    let first_half := if mid > 0 then values.take mid else values.take 1
    let second_half := values.drop mid
    let avg_first := first_half.sum / first_half.length
    let avg_second := second_half.sum / second_half.length
    if avg_first = 0 then (if avg_second > 0 then .increasing else .stable)
    else
      let change := (avg_second - avg_first) / avg_first
      if change > 0.20 then .increasing
      else if change < -0.20 then .decreasing
      else .stable

/-- Method `FTDShortTracker._compute_trend`. -/
def compute_trend (quantities : List ℤ) : Trend :=
  if quantities.length < 2 then .stable
  else compute_trend_from_values (quantities.map fun q => (q : ℚ))

/-- The counting loop of `_check_threshold_list`. -/
def threshold_loop : List ℤ → ℕ → Bool
  | [], _ => false
  | q :: qs, consecutive =>
    if q ≥ 10000 then
      if consecutive + 1 ≥ THRESHOLD_LIST_DAYS then true
      else threshold_loop qs (consecutive + 1)
    else threshold_loop qs 0

/-- Method `FTDShortTracker._check_threshold_list`. -/
def check_threshold_list (quantities : List ℤ) : Bool :=
  if quantities.length < THRESHOLD_LIST_DAYS then false
  else threshold_loop quantities 0

/-- Insert `x` after every element whose key is `≤ key x` — one step of a
stable ascending sort, as the Python `sorted(..., key=...)` is stable. -/
def insertByKey {α : Type} (key : α → String) (x : α) : List α → List α
  | [] => [x]
  | y :: ys => if key x < key y then x :: y :: ys else y :: insertByKey key x ys

/-- Stable ascending sort by a string key (Python `sorted(records, key)`). -/
def sortByKey {α : Type} (key : α → String) (l : List α) : List α :=
  l.foldl (fun acc x => insertByKey key x acc) []

/-- The dict `_analyze_ftd` returns. -/
structure FtdAnalysis where
  current : ℤ
  average : ℚ
  spike_ratio : ℚ
  trend : Trend
  on_threshold_list : Bool
deriving DecidableEq, Repr

/-- Method `FTDShortTracker._analyze_ftd`. -/
def analyze_ftd (records : List FtdRecord) : FtdAnalysis :=
  if records.isEmpty then
    { current := 0, average := 0, spike_ratio := 0, trend := .stable,
      on_threshold_list := false }
  else
    let sorted_recs := sortByKey (fun r => r.settlement_date) records
    let quantities : List ℤ := sorted_recs.map fun r => r.quantity
    let current : ℤ := quantities.getLastD 0
    let average :=
      if quantities.isEmpty then 0
      else ((quantities.map fun q => (q : ℚ)).sum) / quantities.length
    let spike_ratio := if average > 0 then (current : ℚ) / average else 0
    { current := current, average := average, spike_ratio := spike_ratio,
      trend := compute_trend quantities,
      on_threshold_list := check_threshold_list quantities }

/-- The dict `_analyze_short_interest` returns. -/
structure ShortAnalysis where
  ratio_trend : Trend
  days_to_cover : ℚ
deriving DecidableEq, Repr

/-- Method `FTDShortTracker._analyze_short_interest`. -/
def analyze_short_interest (records : List ShortRecord) : ShortAnalysis :=
  if records.isEmpty then { ratio_trend := .neutral, days_to_cover := 0 }
  else
    let sorted_recs := sortByKey (fun r => r.date) records
    let ratios := sorted_recs.filterMap fun r =>
      if r.total_volume > 0 then some ((r.short_volume : ℚ) / (r.total_volume : ℚ))
      else none
    let ratio_trend := compute_trend_from_values ratios
    let avg_short :=
      if sorted_recs.isEmpty then 0
      else ((sorted_recs.map fun r => (r.short_volume : ℚ)).sum) / sorted_recs.length
    let avg_total :=
      if sorted_recs.isEmpty then 0
      else ((sorted_recs.map fun r => (r.total_volume : ℚ)).sum) / sorted_recs.length
    let net_cover_rate := avg_total - avg_short
    let days_to_cover :=
      if net_cover_rate > 0 ∧ avg_short > 0 then avg_short / net_cover_rate else 0
    { ratio_trend := ratio_trend, days_to_cover := days_to_cover }

/-- Method `FTDShortTracker._calculate_score` (baseline 10, tiered additions,
clamped to `[0,100]`). -/
def calculate_score (ftd : FtdAnalysis) (short : ShortAnalysis) : ℚ :=
  let score : ℚ := 10
  let score := score +
    (if ftd.spike_ratio ≥ 10 then 50
     else if ftd.spike_ratio ≥ 5 then 35
     else if ftd.spike_ratio ≥ 2 then 15
     else if ftd.spike_ratio ≥ 1 then 5
     else 0)
  let score := score + (if ftd.on_threshold_list then 15 else 0)
  let score := score +
    (if ftd.trend = .increasing then 10
     else if ftd.trend = .decreasing then -5
     else 0)
  let score := score +
    (if short.days_to_cover ≥ 5 then 15
     else if short.days_to_cover ≥ 3 then 10
     else if short.days_to_cover ≥ 3/2 then 5
     else 0)
  let score := score + (if short.ratio_trend = .increasing then 5 else 0)
  max 0 (min 100 score)

/-- Method `FTDShortTracker._detect_squeeze_potential`. -/
def detect_squeeze_potential (spike_threshold : ℚ) (ftd : FtdAnalysis)
    (short : ShortAnalysis) : Bool :=
  let high_ftd := decide (ftd.spike_ratio ≥ spike_threshold)
  let high_short := decide (short.days_to_cover ≥ 2)
  let covering := decide (short.ratio_trend = .decreasing)
  high_ftd && high_short && covering

/-- The direction strings `_determine_direction` returns. -/
inductive FtdDirection where
  | squeezePotential
  | covering
  | pressure
  | neutral
deriving DecidableEq, Repr

/-- Method `FTDShortTracker._determine_direction`. -/
def determine_direction (spike_threshold : ℚ) (ftd : FtdAnalysis)
    (short : ShortAnalysis) (score : ℚ) : FtdDirection :=
  if detect_squeeze_potential spike_threshold ftd short ∧ score ≥ 70 then
    .squeezePotential
  else if short.ratio_trend = .decreasing ∧ ftd.trend = .decreasing then .covering
  else if ftd.spike_ratio ≥ spike_threshold ∨ ftd.on_threshold_list then .pressure
  else .neutral

/-- The dict `_build_signal` returns. -/
structure FtdSignal where
  ftd_signal_score : ℚ
  ftd_signal_direction : FtdDirection
  ftd_current_quantity : ℤ
  ftd_average_quantity : ℚ
  ftd_spike_ratio : ℚ
  ftd_trend : Trend
  ftd_on_threshold_list : Bool
  short_ratio_trend : Trend
  short_estimated_days_to_cover : ℚ
  short_squeeze_potential : Bool
deriving DecidableEq, Repr

/-- Method `FTDShortTracker._build_signal`: reads the per-ticker caches
(`dict.get(ticker, [])`), analyzes, scores. -/
def build_signal (spike_threshold : ℚ) (ftd_cache : List (String × List FtdRecord))
    (short_volume_cache : List (String × List ShortRecord)) (ticker : String) :
    FtdSignal :=
  let ftd_records := (ftd_cache.lookup ticker).getD []
  let short_records := (short_volume_cache.lookup ticker).getD []
  let ftd_analysis := analyze_ftd ftd_records
  let short_analysis := analyze_short_interest short_records
  let score := calculate_score ftd_analysis short_analysis
  { ftd_signal_score := roundTo2 score
    ftd_signal_direction := determine_direction spike_threshold ftd_analysis short_analysis score
    ftd_current_quantity := ftd_analysis.current
    ftd_average_quantity := roundTo2 ftd_analysis.average
    ftd_spike_ratio := roundTo2 ftd_analysis.spike_ratio
    ftd_trend := ftd_analysis.trend
    ftd_on_threshold_list := ftd_analysis.on_threshold_list
    short_ratio_trend := short_analysis.ratio_trend
    short_estimated_days_to_cover := roundTo2 short_analysis.days_to_cover
    short_squeeze_potential := detect_squeeze_potential spike_threshold ftd_analysis short_analysis }

/-- Method `FTDShortTracker._neutral_result` (no error tag in this producer). -/
def neutral_result : FtdSignal :=
  { ftd_signal_score := 10, ftd_signal_direction := .neutral,
    ftd_current_quantity := 0, ftd_average_quantity := 0,
    ftd_spike_ratio := 0, ftd_trend := .stable, ftd_on_threshold_list := false,
    short_ratio_trend := .neutral, short_estimated_days_to_cover := 0,
    short_squeeze_potential := false }

/-- Method `FTDShortTracker.analyze_stock`: uppercases the ticker, then the
`try/except` around `_ensure_data_loaded` is a `match` on the load
outcome — any failure returns the neutral result. -/
def analyze_stock (spike_threshold : ℚ) (ftd_cache : List (String × List FtdRecord))
    (short_volume_cache : List (String × List ShortRecord))
    (load_outcome : Except String Unit) (ticker : String) : FtdSignal :=
  let t := ticker.toUpper
  match load_outcome with
  | .ok _ => build_signal spike_threshold ftd_cache short_volume_cache t
  | .error _ => neutral_result

end FTD

/-! ## Signal-producer error handling (`analyze_stock` skeletons)

The `analyze_stock` of each producer wraps its data-fetch/parse layer in
`try/except` (or a `None` check) and degrades to its `_neutral_result`.
The fetch outcome is embedded as an `Except`/`Option` argument and the
deep per-producer scoring path — irrelevant to the error contract — is a
function parameter, so the theorems below hold for every scorer. -/

namespace DarkPool

/-- The result dict of `DarkPoolAnalyzer` (schema of `_neutral_result`;
`_score_signals` fills the same keys). -/
structure DarkPoolResult where
  ticker : String
  darkpool_signal_score : ℚ
  darkpool_signal_direction : String
  darkpool_short_ratio_current : ℚ
  darkpool_short_ratio_avg : ℚ
  darkpool_short_ratio_deviation : ℚ
  darkpool_volume_vs_avg : ℚ
  darkpool_trend : String
  darkpool_consecutive_decline_days : ℕ
  darkpool_anomaly_detected : Bool
  error : Option String
deriving DecidableEq, Repr

/-- Method `DarkPoolAnalyzer._neutral_result` (score 30, DIRECTION_NEUTRAL,
TREND_STABLE, optional error tag). -/
def neutral_result (ticker : String) (error : Option String) : DarkPoolResult :=
  { ticker := ticker, darkpool_signal_score := 30,
    darkpool_signal_direction := "neutral", darkpool_short_ratio_current := 0,
    darkpool_short_ratio_avg := 0, darkpool_short_ratio_deviation := 0,
    darkpool_volume_vs_avg := 0, darkpool_trend := "stable",
    darkpool_consecutive_decline_days := 0, darkpool_anomaly_detected := false,
    error := error }

/-- The exceptions `DarkPoolAnalyzer.analyze_stock` catches:
`requests.RequestException` and any other `Exception` (with its message). -/
inductive DarkPoolExc where
  | requestException
  | otherException (msg : String)

/-- Method `DarkPoolAnalyzer.analyze_stock`: `β` is a row of the collected
FINRA daily data, `score_signals` the success path. -/
def analyze_stock {β : Type} (score_signals : String → List β → DarkPoolResult)
    (fetch : Except DarkPoolExc (List β)) (ticker : String) : DarkPoolResult :=
  let t := ticker.toUpper.trim
  match fetch with
  | .ok daily_data =>
    if daily_data.length < 3 then neutral_result t (some "insufficient_data")
    else score_signals t daily_data
  | .error .requestException => neutral_result t (some "network_error")
  | .error (.otherException msg) => neutral_result t (some msg)

end DarkPool

namespace Congress

/-- One cleaned trade dict in the output of `_score_ticker`. -/
structure CongressTrade where
  representative : String
  date : String
  trade_type : String
  amount_range : String
  amount_midpoint : ℚ
  disclosure_date : String
deriving DecidableEq, Repr

/-- The result dict of `CongressTradesTracker` (schema of
`_neutral_result`). -/
structure CongressResult where
  ticker : String
  congress_signal_score : ℚ
  congress_signal_direction : String
  congress_trades : List CongressTrade
  congress_trade_count : ℕ
  congress_unique_traders : ℕ
  congress_latest_trade_date : Option String
  congress_cluster_detected : Bool
  error : Option String
deriving DecidableEq, Repr

/-- Method `CongressTradesTracker._neutral_result` (zeroed-out fields, score 0). -/
def neutral_result (ticker : String) (error : Option String) : CongressResult :=
  { ticker := ticker, congress_signal_score := 0,
    congress_signal_direction := "neutral", congress_trades := [],
    congress_trade_count := 0, congress_unique_traders := 0,
    congress_latest_trade_date := none, congress_cluster_detected := false,
    error := error }

/-- Method `CongressTradesTracker.analyze_stock`: a failed `_fetch_all_trades`
(any exception, message `e`) becomes `_neutral_result(ticker, str(e))`. -/
def analyze_stock {τ : Type} (score_ticker : String → List τ → CongressResult)
    (fetch : Except String (List τ)) (ticker : String) : CongressResult :=
  let t := ticker.toUpper.trim
  match fetch with
  | .error e => neutral_result t (some e)
  | .ok all_trades => score_ticker t all_trades

end Congress

namespace InsiderFlow

/-- The result dict of `insider_flow._neutral_result`; `τ` is the type of
a parsed transaction dict. -/
structure InsiderResult (τ : Type) where
  insider_signal_score : ℚ
  insider_signal_direction : String
  insider_transactions : List τ
  insider_cluster_detected : Bool
  insider_cluster_size : ℕ
  insider_total_buy_value : ℚ
  insider_total_sell_value : ℚ
  insider_net_direction : String
  insider_notable_buyers : List String
  insider_error : Option String

/-- Function `insider_flow._neutral_result` (score 0, optional `insider_error`). -/
def neutral_result {τ : Type} (error : Option String) : InsiderResult τ :=
  { insider_signal_score := 0, insider_signal_direction := "neutral",
    insider_transactions := [], insider_cluster_detected := false,
    insider_cluster_size := 0, insider_total_buy_value := 0,
    insider_total_sell_value := 0, insider_net_direction := "neutral",
    insider_notable_buyers := [], insider_error := error }

/-- Method `InsiderFlowDetector.analyze_stock`: unavailable edgartools becomes a
tagged neutral result; `_fetch_form4_filings` catches its own network and
parse errors and returns `[]`, which also degrades to neutral. -/
def analyze_stock {τ : Type} (analyze_rest : List τ → InsiderResult τ)
    (edgar_available : Except String Unit) (transactions : List τ) :
    InsiderResult τ :=
  match edgar_available with
  | .error err => neutral_result (some err)
  | .ok _ =>
    if transactions.isEmpty then neutral_result none
    else analyze_rest transactions

end InsiderFlow

namespace OptionsFlow

/-- The result dict of `options_flow._neutral_result`; `τ` is the type of
a notable-trade entry. -/
structure OptionsResult (τ : Type) where
  options_signal_score : ℚ
  options_signal_direction : String
  options_put_call_ratio : ℚ
  options_unusual_activity : Bool
  options_total_call_volume : ℤ
  options_total_put_volume : ℤ
  options_max_volume_oi_ratio : ℚ
  options_notable_trades : List τ
  options_estimated_premium : ℚ

/-- Method `OptionsFlowAnalyzer._neutral_result` (score 40, no error tag). -/
def neutral_result {τ : Type} : OptionsResult τ :=
  { options_signal_score := 40, options_signal_direction := "neutral",
    options_put_call_ratio := 1, options_unusual_activity := false,
    options_total_call_volume := 0, options_total_put_volume := 0,
    options_max_volume_oi_ratio := 0, options_notable_trades := [],
    options_estimated_premium := 0 }

/-- Method `OptionsFlowAnalyzer.analyze_stock`: missing API key, an exception in
the chain retrieval, no expirations, or an empty chain all become the
neutral result (`fetch` models the expiration+chain retrieval; an empty
list covers both empty cases). -/
def analyze_stock {τ : Type} (analyze_contracts : List τ → OptionsResult τ)
    (api_key_present : Bool) (fetch : Except String (List τ)) : OptionsResult τ :=
  if !api_key_present then neutral_result
  else
    match fetch with
    | .error _ => neutral_result
    | .ok all_contracts =>
      if all_contracts.isEmpty then neutral_result
      else analyze_contracts all_contracts

end OptionsFlow

namespace Social

/-- The result dict of `social_sentiment._neutral_result`. -/
structure SocialResult where
  social_signal_score : ℚ
  social_signal_direction : String
  social_mentions_rank : ℕ
  social_mentions_count : ℕ
  social_mention_velocity : ℚ
  social_upvotes : ℕ
  social_trending : Bool
  social_new_discovery : Bool
  social_error : Option String
deriving DecidableEq, Repr

/-- Function `social_sentiment._neutral_result` (score 0, optional `social_error`). -/
def neutral_result (error : Option String) : SocialResult :=
  { social_signal_score := 0, social_signal_direction := "neutral",
    social_mentions_rank := 0, social_mentions_count := 0,
    social_mention_velocity := 0, social_upvotes := 0,
    social_trending := false, social_new_discovery := false,
    social_error := error }

/-- Method `SocialSentimentScorer.analyze_stock`: `_get_social_data` returns
`None` on failure (it catches its own exceptions), which becomes the
tagged neutral result. -/
def analyze_stock {τ : Type} (score_ticker : String → τ → SocialResult)
    (data : Option τ) (ticker : String) : SocialResult :=
  match data with
  | none => neutral_result (some "apewisdom_unavailable")
  | some d => score_ticker ticker d

end Social

/-! ## Concrete inputs and claim-side definitions -/

/-- The all-neutral input: every score key of `WEIGHT_TO_SCORE_KEY`
present with value 50. -/
def allNeutralInput : StockData :=
  [("insider_signal_score", PyVal.num 50),
   ("darkpool_signal_score", PyVal.num 50),
   ("options_signal_score", PyVal.num 50),
   ("congress_signal_score", PyVal.num 50),
   ("ftd_signal_score", PyVal.num 50),
   ("social_signal_score", PyVal.num 50),
   ("technical_score", PyVal.num 50),
   ("fundamental_score", PyVal.num 50),
   ("volatility_score", PyVal.num 50),
   ("whale_13f_signal_score", PyVal.num 50)]

/-- The strict-boundary input: one dark-signal score of 60.004, which is
`> 60` but rounds to 60.00. -/
def boundaryInput : StockData :=
  [("insider_signal_score", PyVal.num (60 + 4/1000))]

/-- Three dark-signal scores at the 60.004 boundary. -/
def tripleBoundaryInput : StockData :=
  [("insider_signal_score", PyVal.num (60 + 4/1000)),
   ("darkpool_signal_score", PyVal.num (60 + 4/1000)),
   ("options_signal_score", PyVal.num (60 + 4/1000))]

/-- Three dark-signal scores at 70 (comfortably above the threshold). -/
def tripleStrongInput : StockData :=
  [("insider_signal_score", PyVal.num 70),
   ("darkpool_signal_score", PyVal.num 70),
   ("options_signal_score", PyVal.num 70)]

/-- The risk points exactly as claim C8 states them: a volatility tier
(+2 above 70, +1 above 55), +2 when some conflict-check score is bullish
(>60) while another is bearish (<40), +1 when the technical and
fundamental scores diverge by more than 30. -/
def claimRiskPoints (stock_data : StockData) : ℕ :=
  (if (safe_float (stock_data.lookup "volatility_score")).getD NEUTRAL_SCORE > 70
     then 2
   else if (safe_float (stock_data.lookup "volatility_score")).getD NEUTRAL_SCORE > 55
     then 1
   else 0) +
  (if ((signal_pairs.any fun p =>
        match safe_float (stock_data.lookup p.1) with
        | none => false
        | some v => decide (v > 60)) = true ∧
      (signal_pairs.any fun p =>
        match safe_float (stock_data.lookup p.1) with
        | none => false
        | some v => decide (v < 40)) = true)
   then 2 else 0) +
  (match safe_float (stock_data.lookup "technical_score"),
         safe_float (stock_data.lookup "fundamental_score") with
   | some tech, some fund => if |tech - fund| > 30 then 1 else 0
   | _, _ => 0)


/-! ## Helper lemmas -/

theorem roundHalfEven_bounds {q : ℚ} {n : ℤ} (h0 : 0 ≤ q) (hn : q ≤ (n : ℚ)) :
    0 ≤ roundHalfEven q ∧ roundHalfEven q ≤ n := by
  have hf0 : 0 ≤ ⌊q⌋ := Int.le_floor.mpr (by exact_mod_cast h0)
  have hfn : ⌊q⌋ ≤ n := by
    have h := Int.floor_le_floor hn
    simpa using h
  have hfloor : (⌊q⌋ : ℚ) ≤ q := Int.floor_le q
  unfold roundHalfEven
  split_ifs with h1 h2 h3
  · exact ⟨hf0, hfn⟩
  · refine ⟨by omega, ?_⟩
    have hlt : (⌊q⌋ : ℚ) < q := by linarith
    have hln : (⌊q⌋ : ℚ) < (n : ℚ) := lt_of_lt_of_le hlt hn
    have : ⌊q⌋ < n := by exact_mod_cast hln
    omega
  · exact ⟨hf0, hfn⟩
  · refine ⟨by omega, ?_⟩
    have h12 : q - ⌊q⌋ = 1/2 := le_antisymm (not_lt.mp h2) (not_lt.mp h1)
    have hlt : (⌊q⌋ : ℚ) < q := by linarith
    have hln : (⌊q⌋ : ℚ) < (n : ℚ) := lt_of_lt_of_le hlt hn
    have : ⌊q⌋ < n := by exact_mod_cast hln
    omega

theorem roundTo2_bounds {q : ℚ} (h0 : 0 ≤ q) (h100 : q ≤ 100) :
    0 ≤ roundTo2 q ∧ roundTo2 q ≤ 100 := by
  have h : 0 ≤ roundHalfEven (100 * q) ∧ roundHalfEven (100 * q) ≤ (10000 : ℤ) :=
    roundHalfEven_bounds (by linarith) (by push_cast; linarith)
  unfold roundTo2
  constructor
  · exact div_nonneg (by exact_mod_cast h.1) (by norm_num)
  · rw [div_le_iff (by norm_num : (0:ℚ) < 100)]
    have : ((roundHalfEven (100 * q) : ℤ) : ℚ) ≤ (10000 : ℚ) := by exact_mod_cast h.2
    linarith

theorem getSignalScore_bounds (stock_data : StockData) (k : String) :
    0 ≤ get_signal_score stock_data k ∧ get_signal_score stock_data k ≤ 100 := by
  unfold get_signal_score
  split
  · norm_num [NEUTRAL_SCORE]
  · split
    · norm_num [NEUTRAL_SCORE]
    · norm_num [NEUTRAL_SCORE]
    · exact ⟨le_max_left _ _, max_le (by norm_num) (min_le_left _ _)⟩

theorem lookup_map_fst {β : Type} (l : List (String × β)) (f : String → β)
    (k : String) (hk : k ∈ l.map Prod.fst) :
    (l.map fun p => (p.1, f p.1)).lookup k = some (f k) := by
  induction l with
  | nil => simp at hk
  | cons p t ih =>
    rcases p with ⟨a, b⟩
    by_cases h : k = a
    · subst h
      simp [List.lookup]
    · have hbeq : (k == a) = false := beq_eq_false_iff_ne.mpr h
      have hmem : k ∈ t.map Prod.fst := by
        rcases List.mem_cons.mp hk with h1 | h1
        · exact absurd h1 h
        · exact h1
      simp [List.lookup, hbeq, ih hmem]

theorem lookup_map_pair {β : Type} (l : List (String × β)) (g : String → β → β)
    (k : String) :
    (l.map fun p => (p.1, g p.1 p.2)).lookup k = Option.map (g k) (l.lookup k) := by
  induction l with
  | nil => simp
  | cons p t ih =>
    rcases p with ⟨a, b⟩
    by_cases h : k = a
    · subst h
      simp [List.lookup]
    · have hbeq : (k == a) = false := beq_eq_false_iff_ne.mpr h
      simp [List.lookup, hbeq, ih]

theorem lookup_some_mem {β : Type} {l : List (String × β)} {k : String} {v : β}
    (h : l.lookup k = some v) : (k, v) ∈ l := by
  induction l with
  | nil => simp [List.lookup] at h
  | cons p t ih =>
    rcases p with ⟨a, b⟩
    by_cases hk : k = a
    · subst hk
      simp only [List.lookup, beq_self_eq_true] at h
      rcases h with h
      simp_all
    · have hbeq : (k == a) = false := beq_eq_false_iff_ne.mpr hk
      simp only [List.lookup, hbeq] at h
      exact List.mem_cons_of_mem _ (ih h)

theorem sum_map_div (l : List ℚ) (c : ℚ) :
    (l.map fun x => x / c).sum = l.sum / c := by
  induction l with
  | nil => simp
  | cons x t ih => simp [ih, add_div]

/-! ## Evaluation lemmas -/

theorem map_fst_map_keep {β γ : Type} (l : List (String × β)) (g : String × β → γ) :
    ((l.map fun p => (p.1, g p)).map Prod.fst) = l.map Prod.fst := by
  induction l with
  | nil => rfl
  | cons p t ih => simp [ih]

theorem fillWeights_default : fill_weights DEFAULT_WEIGHTS = DEFAULT_WEIGHTS := by
  simp [fill_weights, DEFAULT_WEIGHTS, List.lookup]

theorem default_weights_sum : ((DEFAULT_WEIGHTS.map Prod.snd).sum) = 1 := by
  simp [DEFAULT_WEIGHTS]
  norm_num

theorem defaultEngine_weights : defaultEngine.weights = DEFAULT_WEIGHTS := by
  show load_weights none = DEFAULT_WEIGHTS
  unfold load_weights
  simp only [Option.getD_none, fillWeights_default, default_weights_sum]
  norm_num

theorem gss_nil (k : String) : get_signal_score [] k = NEUTRAL_SCORE := by
  unfold get_signal_score
  split <;> rfl

theorem roundTo2_neutral : roundTo2 NEUTRAL_SCORE = NEUTRAL_SCORE := by
  norm_num [roundTo2, roundHalfEven, NEUTRAL_SCORE]

/-- Under the default configuration, the active dark signals are exactly
the dark keys whose rounded clamped score exceeds the threshold. -/
theorem activeDark_default (stock_data : StockData) :
    active_dark_signals_of defaultEngine stock_data =
      DEFAULT_DARK_SIGNAL_KEYS.filter
        (fun k => decide (ACTIVE_THRESHOLD < roundTo2 (get_signal_score stock_data k))) := by
  unfold active_dark_signals_of detect_active_dark_signals
  have hkeys : defaultEngine.dark_signal_keys = DEFAULT_DARK_SIGNAL_KEYS := rfl
  rw [hkeys]
  apply List.filter_congr
  intro k hk
  have hk' : k ∈ DEFAULT_DARK_SIGNAL_KEYS := hk
  have hkw : k ∈ defaultEngine.weights.map Prod.fst := by
    rw [defaultEngine_weights]
    simp only [DEFAULT_DARK_SIGNAL_KEYS, List.mem_cons, List.not_mem_nil, or_false] at hk'
    rcases hk' with rfl | rfl | rfl | rfl | rfl <;> simp [DEFAULT_WEIGHTS]
  have hlook : (signal_scores_of defaultEngine stock_data).lookup k
      = some (roundTo2 (get_signal_score stock_data k)) := by
    unfold signal_scores_of
    exact lookup_map_fst defaultEngine.weights
      (fun x => roundTo2 (get_signal_score stock_data x)) k hkw
  rw [hlook]
  rfl

/-! ## Claim theorems -/

/-- C1: for every engine configuration and every input score map, the
output `conviction_score` lies in `[0, 100]` and every entry of
`signal_scores` lies in `[0, 100]`; under the default configuration an
input score of 200 appears in `signal_scores` as 100.0 and an input of
−50 appears as 0.0. -/
theorem C1_clamping_invariant :
    (∀ (e : Engine) (stock_data : StockData),
        0 ≤ (calculate_conviction_score e stock_data).conviction_score ∧
        (calculate_conviction_score e stock_data).conviction_score ≤ 100 ∧
        ∀ p ∈ (calculate_conviction_score e stock_data).signal_scores,
          0 ≤ p.2 ∧ p.2 ≤ 100) ∧
    ((calculate_conviction_score defaultEngine
        [("insider_signal_score", PyVal.num 200)]).signal_scores.lookup
        "insider_flow" = some 100) ∧
    ((calculate_conviction_score defaultEngine
        [("insider_signal_score", PyVal.num (-50))]).signal_scores.lookup
        "insider_flow" = some 0) := by
  have hkw : ("insider_flow" : String) ∈ defaultEngine.weights.map Prod.fst := by
    rw [defaultEngine_weights]
    simp [DEFAULT_WEIGHTS]
  refine ⟨fun e stock_data => ?_, ?_, ?_⟩
  · have hclamp :
        0 ≤ min 100 (max 0 (weighted_sum e stock_data +
            CONFLUENCE_BONUS (conviction_level_of e stock_data))) ∧
        min 100 (max 0 (weighted_sum e stock_data +
            CONFLUENCE_BONUS (conviction_level_of e stock_data))) ≤ 100 :=
      ⟨le_min (by norm_num) (le_max_left _ _), min_le_left _ _⟩
    have hscore := roundTo2_bounds hclamp.1 hclamp.2
    refine ⟨hscore.1, hscore.2, ?_⟩
    intro p hp
    rcases List.mem_map.mp hp with ⟨q, _, rfl⟩
    have hb := getSignalScore_bounds stock_data q.1
    exact roundTo2_bounds hb.1 hb.2
  · show (signal_scores_of defaultEngine _).lookup "insider_flow" = some 100
    unfold signal_scores_of
    refine Eq.trans (lookup_map_fst defaultEngine.weights
      (fun x => roundTo2 (get_signal_score
        [("insider_signal_score", PyVal.num 200)] x)) "insider_flow" hkw) ?_
    have h1 : get_signal_score [("insider_signal_score", PyVal.num 200)]
        "insider_flow" = 100 := by
      simp [get_signal_score, WEIGHT_TO_SCORE_KEY, List.lookup] <;> norm_num
    simp only [h1]
    norm_num [roundTo2, roundHalfEven]
  · show (signal_scores_of defaultEngine _).lookup "insider_flow" = some 0
    unfold signal_scores_of
    refine Eq.trans (lookup_map_fst defaultEngine.weights
      (fun x => roundTo2 (get_signal_score
        [("insider_signal_score", PyVal.num (-50))] x)) "insider_flow" hkw) ?_
    have h1 : get_signal_score [("insider_signal_score", PyVal.num (-50))]
        "insider_flow" = 0 := by
      simp [get_signal_score, WEIGHT_TO_SCORE_KEY, List.lookup] <;> norm_num
    simp only [h1]
    norm_num [roundTo2, roundHalfEven]

/-- C1 witness: the universal part applied at the concrete 200-input on
its actual `("insider_flow", 100)` entry of `signal_scores`. -/
theorem C1_clamping_invariant_witness :
    (("insider_flow", (100 : ℚ)) ∈
      (calculate_conviction_score defaultEngine
        [("insider_signal_score", PyVal.num 200)]).signal_scores) ∧
    (0 ≤ (100 : ℚ) ∧ (100 : ℚ) ≤ 100) := by
  have hmem : (("insider_flow", (100 : ℚ)) ∈
      (calculate_conviction_score defaultEngine
        [("insider_signal_score", PyVal.num 200)]).signal_scores) := by
    have h := C1_clamping_invariant.2.1
    exact lookup_some_mem h
  exact ⟨hmem,
    (C1_clamping_invariant.1 defaultEngine
        [("insider_signal_score", PyVal.num 200)]).2.2
      ("insider_flow", (100 : ℚ)) hmem⟩

theorem gss_all_neutral (k : String) :
    get_signal_score [] k = get_signal_score allNeutralInput k := by
  unfold get_signal_score
  split
  · rfl
  · rename_i sk heq
    have hmem := lookup_some_mem heq
    simp only [WEIGHT_TO_SCORE_KEY, List.mem_cons, List.not_mem_nil,
      or_false, Prod.mk.injEq] at hmem
    rcases hmem with h | h | h | h | h | h | h | h | h | h
    all_goals
      obtain ⟨rfl, rfl⟩ := h
      simp [allNeutralInput, List.lookup]
      norm_num [NEUTRAL_SCORE]

theorem weightedSum_nil : weighted_sum defaultEngine [] = 50 := by
  unfold weighted_sum
  rw [defaultEngine_weights]
  simp [DEFAULT_WEIGHTS, gss_nil, NEUTRAL_SCORE]
  norm_num

theorem activeDark_nil : active_dark_signals_of defaultEngine [] = [] := by
  rw [activeDark_default]
  simp [DEFAULT_DARK_SIGNAL_KEYS, gss_nil, roundTo2_neutral, ACTIVE_THRESHOLD,
    NEUTRAL_SCORE]
  norm_num [roundTo2, roundHalfEven]

theorem convictionLevel_nil :
    conviction_level_of defaultEngine [] = ConvictionLevel.technicalOnly := by
  unfold conviction_level_of get_conviction_level
  rw [activeDark_nil]
  rfl

/-- C4: under the default configuration the empty input dict and the
all-neutral input (every score key 50) produce identical results, with
`conviction_score = 50.0` and level `TECHNICAL_ONLY` (a missing key is
treated as neutral 50, not 0). -/
theorem C4_empty_equals_all_neutral :
    calculate_conviction_score defaultEngine [] =
      calculate_conviction_score defaultEngine allNeutralInput ∧
    (calculate_conviction_score defaultEngine []).conviction_score = 50 ∧
    (calculate_conviction_score defaultEngine []).conviction_level =
      ConvictionLevel.technicalOnly := by
  have hws : weighted_sum defaultEngine [] =
      weighted_sum defaultEngine allNeutralInput := by
    unfold weighted_sum
    exact congrArg _ (List.map_congr_left fun p _ => by rw [gss_all_neutral])
  have hsig : signal_scores_of defaultEngine [] =
      signal_scores_of defaultEngine allNeutralInput := by
    unfold signal_scores_of
    exact List.map_congr_left fun p _ => by rw [gss_all_neutral]
  have hrisk1 : assess_risk [] = RiskLevel.low := by
    simp [assess_risk, signal_pairs, safe_float, List.lookup, NEUTRAL_SCORE]
    norm_num
  have hrisk2 : assess_risk allNeutralInput = RiskLevel.low := by
    simp [assess_risk, allNeutralInput, signal_pairs, safe_float, List.lookup,
      NEUTRAL_SCORE]
    norm_num
  refine ⟨?_, ?_, ?_⟩
  · unfold calculate_conviction_score conviction_level_of active_dark_signals_of
    rw [hws, hsig, hrisk1, hrisk2]
  · show roundTo2 (min 100 (max 0 (weighted_sum defaultEngine [] +
      CONFLUENCE_BONUS (conviction_level_of defaultEngine [])))) = 50
    rw [weightedSum_nil, convictionLevel_nil]
    norm_num [CONFLUENCE_BONUS, roundTo2, roundHalfEven]
  · show conviction_level_of defaultEngine [] = ConvictionLevel.technicalOnly
    exact convictionLevel_nil

theorem gss_boundary_insider :
    get_signal_score boundaryInput "insider_flow" = 60 + 4/1000 := by
  simp [boundaryInput, get_signal_score, WEIGHT_TO_SCORE_KEY, List.lookup]
  norm_num

theorem gss_boundary_others :
    get_signal_score boundaryInput "dark_pool" = NEUTRAL_SCORE ∧
    get_signal_score boundaryInput "options_flow" = NEUTRAL_SCORE ∧
    get_signal_score boundaryInput "congress" = NEUTRAL_SCORE ∧
    get_signal_score boundaryInput "ftd_short" = NEUTRAL_SCORE := by
  refine ⟨?_, ?_, ?_, ?_⟩ <;>
    simp [boundaryInput, get_signal_score, WEIGHT_TO_SCORE_KEY, List.lookup]

theorem roundTo2_boundary : roundTo2 (60 + 4/1000) = 60 := by
  norm_num [roundTo2, roundHalfEven]

theorem activeDark_boundary : active_dark_signals_of defaultEngine boundaryInput = [] := by
  rw [activeDark_default]
  have e1 : roundTo2 (get_signal_score boundaryInput "insider_flow") = 60 := by
    rw [gss_boundary_insider, roundTo2_boundary]
  have e2 : roundTo2 (get_signal_score boundaryInput "dark_pool") = 50 := by
    rw [gss_boundary_others.1, roundTo2_neutral]; rfl
  have e3 : roundTo2 (get_signal_score boundaryInput "options_flow") = 50 := by
    rw [gss_boundary_others.2.1, roundTo2_neutral]; rfl
  have e4 : roundTo2 (get_signal_score boundaryInput "congress") = 50 := by
    rw [gss_boundary_others.2.2.1, roundTo2_neutral]; rfl
  have e5 : roundTo2 (get_signal_score boundaryInput "ftd_short") = 50 := by
    rw [gss_boundary_others.2.2.2, roundTo2_neutral]; rfl
  norm_num [DEFAULT_DARK_SIGNAL_KEYS, List.filter, e1, e2, e3, e4, e5,
    ACTIVE_THRESHOLD]

/-- C2 counterexample: at input 60.004 the clamped score exceeds 60, yet
the key is not counted active (count 0, level TECHNICAL_ONLY instead of
SINGLE_SIGNAL), because activity is tested on the 2-decimal rounding. -/
theorem C2_counterexample :
    (60 : ℚ) < get_signal_score boundaryInput "insider_flow" ∧
    (calculate_conviction_score defaultEngine boundaryInput).active_dark_signal_count
      = 0 ∧
    (calculate_conviction_score defaultEngine boundaryInput).conviction_level =
      ConvictionLevel.technicalOnly := by
  refine ⟨?_, ?_, ?_⟩
  · rw [gss_boundary_insider]; norm_num
  · show (active_dark_signals_of defaultEngine boundaryInput).length = 0
    rw [activeDark_boundary]; rfl
  · show conviction_level_of defaultEngine boundaryInput = _
    unfold conviction_level_of get_conviction_level
    rw [activeDark_boundary]
    rfl

theorem gss_single61 :
    get_signal_score [("insider_signal_score", PyVal.num 61)] "insider_flow" = 61 := by
  simp [get_signal_score, WEIGHT_TO_SCORE_KEY, List.lookup]
  norm_num

theorem gss_single60 :
    get_signal_score [("insider_signal_score", PyVal.num 60)] "insider_flow" = 60 := by
  simp [get_signal_score, WEIGHT_TO_SCORE_KEY, List.lookup]
  norm_num

theorem gss_single_other (x : ℚ) (k : String)
    (hk : k ∈ (["dark_pool", "options_flow", "congress", "ftd_short"] : List String)) :
    get_signal_score [("insider_signal_score", PyVal.num x)] k = NEUTRAL_SCORE := by
  simp only [List.mem_cons, List.not_mem_nil, or_false] at hk
  rcases hk with rfl | rfl | rfl | rfl <;>
    simp [get_signal_score, WEIGHT_TO_SCORE_KEY, List.lookup]

theorem activeDark_61 :
    active_dark_signals_of defaultEngine [("insider_signal_score", PyVal.num 61)]
      = ["insider_flow"] := by
  rw [activeDark_default]
  have e1 : roundTo2 (get_signal_score
      [("insider_signal_score", PyVal.num 61)] "insider_flow") = 61 := by
    rw [gss_single61]; norm_num [roundTo2, roundHalfEven]
  have e2 := gss_single_other 61 "dark_pool" (by simp)
  have e3 := gss_single_other 61 "options_flow" (by simp)
  have e4 := gss_single_other 61 "congress" (by simp)
  have e5 := gss_single_other 61 "ftd_short" (by simp)
  norm_num [DEFAULT_DARK_SIGNAL_KEYS, List.filter, e1, e2, e3, e4, e5,
    ACTIVE_THRESHOLD, NEUTRAL_SCORE]
  norm_num [roundTo2, roundHalfEven]

theorem activeDark_60 :
    active_dark_signals_of defaultEngine [("insider_signal_score", PyVal.num 60)]
      = [] := by
  rw [activeDark_default]
  have e1 : roundTo2 (get_signal_score
      [("insider_signal_score", PyVal.num 60)] "insider_flow") = 60 := by
    rw [gss_single60]; norm_num [roundTo2, roundHalfEven]
  have e2 := gss_single_other 60 "dark_pool" (by simp)
  have e3 := gss_single_other 60 "options_flow" (by simp)
  have e4 := gss_single_other 60 "congress" (by simp)
  have e5 := gss_single_other 60 "ftd_short" (by simp)
  norm_num [DEFAULT_DARK_SIGNAL_KEYS, List.filter, e1, e2, e3, e4, e5,
    ACTIVE_THRESHOLD, NEUTRAL_SCORE]
  norm_num [roundTo2, roundHalfEven]

/-- C2 (amended): under the default configuration a dark-signal key is
counted active iff its clamped score, rounded to two decimals, is
strictly greater than 60; raising exactly one dark-signal key to 61
(others neutral) yields SINGLE_SIGNAL with `active_dark_signal_count` 1,
and a score of exactly 60 yields `active_dark_signal_count` 0. -/
theorem C2_active_iff_rounded_above_60 (stock_data : StockData) (k : String)
    (hk : k ∈ defaultEngine.dark_signal_keys) :
    ((k ∈ (calculate_conviction_score defaultEngine stock_data).active_dark_signals)
       ↔ ACTIVE_THRESHOLD < roundTo2 (get_signal_score stock_data k)) ∧
    (calculate_conviction_score defaultEngine
        [("insider_signal_score", PyVal.num 61)]).conviction_level =
      ConvictionLevel.singleSignal ∧
    (calculate_conviction_score defaultEngine
        [("insider_signal_score", PyVal.num 61)]).active_dark_signal_count = 1 ∧
    (calculate_conviction_score defaultEngine
        [("insider_signal_score", PyVal.num 60)]).active_dark_signal_count = 0 := by
  refine ⟨?_, ?_, ?_, ?_⟩
  · have hk' : k ∈ DEFAULT_DARK_SIGNAL_KEYS := hk
    show (k ∈ active_dark_signals_of defaultEngine stock_data) ↔ _
    rw [activeDark_default]
    simp [List.mem_filter, hk']
  · show conviction_level_of defaultEngine _ = _
    unfold conviction_level_of get_conviction_level
    rw [activeDark_61]
    rfl
  · show (active_dark_signals_of defaultEngine _).length = 1
    rw [activeDark_61]
    rfl
  · show (active_dark_signals_of defaultEngine _).length = 0
    rw [activeDark_60]
    rfl

/-- C2 witness: the amended theorem applied to the boundary input at the
key `insider_flow`. -/
theorem C2_active_iff_witness :
    ("insider_flow" ∈ defaultEngine.dark_signal_keys) ∧
    ((("insider_flow" ∈
        (calculate_conviction_score defaultEngine boundaryInput).active_dark_signals)
       ↔ ACTIVE_THRESHOLD < roundTo2 (get_signal_score boundaryInput "insider_flow"))) := by
  have hk : ("insider_flow" : String) ∈ defaultEngine.dark_signal_keys := by
    show ("insider_flow" : String) ∈ DEFAULT_DARK_SIGNAL_KEYS
    simp [DEFAULT_DARK_SIGNAL_KEYS]
  exact ⟨hk, (C2_active_iff_rounded_above_60 boundaryInput "insider_flow" hk).1⟩

theorem gss_tripleBoundary :
    get_signal_score tripleBoundaryInput "insider_flow" = 60 + 4/1000 ∧
    get_signal_score tripleBoundaryInput "dark_pool" = 60 + 4/1000 ∧
    get_signal_score tripleBoundaryInput "options_flow" = 60 + 4/1000 ∧
    get_signal_score tripleBoundaryInput "congress" = NEUTRAL_SCORE ∧
    get_signal_score tripleBoundaryInput "ftd_short" = NEUTRAL_SCORE := by
  refine ⟨?_, ?_, ?_, ?_, ?_⟩ <;>
    (simp [tripleBoundaryInput, get_signal_score, WEIGHT_TO_SCORE_KEY, List.lookup] <;>
      norm_num)

theorem activeDark_tripleBoundary :
    active_dark_signals_of defaultEngine tripleBoundaryInput = [] := by
  rw [activeDark_default]
  have e1 : roundTo2 (get_signal_score tripleBoundaryInput "insider_flow") = 60 := by
    rw [gss_tripleBoundary.1, roundTo2_boundary]
  have e2 : roundTo2 (get_signal_score tripleBoundaryInput "dark_pool") = 60 := by
    rw [gss_tripleBoundary.2.1, roundTo2_boundary]
  have e3 : roundTo2 (get_signal_score tripleBoundaryInput "options_flow") = 60 := by
    rw [gss_tripleBoundary.2.2.1, roundTo2_boundary]
  have e4 := gss_tripleBoundary.2.2.2.1
  have e5 := gss_tripleBoundary.2.2.2.2
  norm_num [DEFAULT_DARK_SIGNAL_KEYS, List.filter, e1, e2, e3, e4, e5,
    ACTIVE_THRESHOLD, NEUTRAL_SCORE]
  norm_num [roundTo2, roundHalfEven]

/-- C3 counterexample: three dark-signal keys at 60.004 are each strictly
above 60 after clamping (and the other two dark keys are neutral), yet
the engine reports TECHNICAL_ONLY with zero active signals rather than
DARK_FLOW_ALERT — again the 2-decimal rounding decides activity. -/
theorem C3_counterexample :
    ((60 : ℚ) < get_signal_score tripleBoundaryInput "insider_flow" ∧
     (60 : ℚ) < get_signal_score tripleBoundaryInput "dark_pool" ∧
     (60 : ℚ) < get_signal_score tripleBoundaryInput "options_flow" ∧
     ¬ ((60 : ℚ) < get_signal_score tripleBoundaryInput "congress") ∧
     ¬ ((60 : ℚ) < get_signal_score tripleBoundaryInput "ftd_short")) ∧
    (calculate_conviction_score defaultEngine tripleBoundaryInput).conviction_level
      = ConvictionLevel.technicalOnly ∧
    (calculate_conviction_score defaultEngine
        tripleBoundaryInput).active_dark_signal_count = 0 := by
  refine ⟨⟨?_, ?_, ?_, ?_, ?_⟩, ?_, ?_⟩
  · rw [gss_tripleBoundary.1]; norm_num
  · rw [gss_tripleBoundary.2.1]; norm_num
  · rw [gss_tripleBoundary.2.2.1]; norm_num
  · rw [gss_tripleBoundary.2.2.2.1]; norm_num [NEUTRAL_SCORE]
  · rw [gss_tripleBoundary.2.2.2.2]; norm_num [NEUTRAL_SCORE]
  · show conviction_level_of defaultEngine tripleBoundaryInput = _
    unfold conviction_level_of get_conviction_level
    rw [activeDark_tripleBoundary]
    rfl
  · show (active_dark_signals_of defaultEngine tripleBoundaryInput).length = 0
    rw [activeDark_tripleBoundary]
    rfl

/-- C3 (amended): for every input under the default configuration in
which exactly three dark-signal keys have 2-decimal-rounded clamped score
strictly above 60, the result is DARK_FLOW_ALERT with
`active_dark_signal_count` 3, `position_size_pct` 10.0,
`max_allocation_pct` 15.0, and `conviction_score` equal to the weighted
sum plus the +15 bonus, clamped to `[0,100]` and rounded to 2 decimals. -/
theorem C3_dark_flow_alert (stock_data : StockData)
    (h3 : DEFAULT_DARK_SIGNAL_KEYS.countP
        (fun k => decide (ACTIVE_THRESHOLD < roundTo2 (get_signal_score stock_data k)))
      = 3) :
    (calculate_conviction_score defaultEngine stock_data).conviction_level =
      ConvictionLevel.darkFlowAlert ∧
    (calculate_conviction_score defaultEngine stock_data).active_dark_signal_count
      = 3 ∧
    (calculate_conviction_score defaultEngine stock_data).position_size_pct = 10 ∧
    (calculate_conviction_score defaultEngine stock_data).max_allocation_pct = 15 ∧
    (calculate_conviction_score defaultEngine stock_data).conviction_score =
      roundTo2 (min 100 (max 0 (weighted_sum defaultEngine stock_data + 15))) := by
  have hlen : (active_dark_signals_of defaultEngine stock_data).length = 3 := by
    rw [activeDark_default, ← List.countP_eq_length_filter]
    exact h3
  have hlevel : conviction_level_of defaultEngine stock_data =
      ConvictionLevel.darkFlowAlert := by
    unfold conviction_level_of get_conviction_level
    simp only [hlen]
    rfl
  refine ⟨hlevel, hlen, ?_, ?_, ?_⟩
  · show (POSITION_SIZE_MAP (conviction_level_of defaultEngine stock_data)).1 = 10
    rw [hlevel]
    rfl
  · show MAX_ALLOCATION_MAP (conviction_level_of defaultEngine stock_data) = 15
    rw [hlevel]
    rfl
  · show roundTo2 (min 100 (max 0 (weighted_sum defaultEngine stock_data +
      CONFLUENCE_BONUS (conviction_level_of defaultEngine stock_data)))) = _
    rw [hlevel]
    rfl

theorem countP_tripleStrong :
    DEFAULT_DARK_SIGNAL_KEYS.countP
      (fun k => decide (ACTIVE_THRESHOLD <
        roundTo2 (get_signal_score tripleStrongInput k))) = 3 := by
  have e1 : get_signal_score tripleStrongInput "insider_flow" = 70 := by
    simp [tripleStrongInput, get_signal_score, WEIGHT_TO_SCORE_KEY, List.lookup]
    norm_num
  have e2 : get_signal_score tripleStrongInput "dark_pool" = 70 := by
    simp [tripleStrongInput, get_signal_score, WEIGHT_TO_SCORE_KEY, List.lookup]
    norm_num
  have e3 : get_signal_score tripleStrongInput "options_flow" = 70 := by
    simp [tripleStrongInput, get_signal_score, WEIGHT_TO_SCORE_KEY, List.lookup]
    norm_num
  have e4 : get_signal_score tripleStrongInput "congress" = NEUTRAL_SCORE := by
    simp [tripleStrongInput, get_signal_score, WEIGHT_TO_SCORE_KEY, List.lookup]
  have e5 : get_signal_score tripleStrongInput "ftd_short" = NEUTRAL_SCORE := by
    simp [tripleStrongInput, get_signal_score, WEIGHT_TO_SCORE_KEY, List.lookup]
  norm_num [DEFAULT_DARK_SIGNAL_KEYS, List.countP, List.countP.go,
    e1, e2, e3, e4, e5, ACTIVE_THRESHOLD, NEUTRAL_SCORE]
  norm_num [roundTo2, roundHalfEven]

/-- C3 witness: the amended theorem applied to three dark-signal scores
of 70. -/
theorem C3_dark_flow_alert_witness :
    (DEFAULT_DARK_SIGNAL_KEYS.countP
        (fun k => decide (ACTIVE_THRESHOLD <
          roundTo2 (get_signal_score tripleStrongInput k))) = 3) ∧
    ((calculate_conviction_score defaultEngine tripleStrongInput).conviction_level =
        ConvictionLevel.darkFlowAlert ∧
     (calculate_conviction_score defaultEngine
        tripleStrongInput).active_dark_signal_count = 3 ∧
     (calculate_conviction_score defaultEngine tripleStrongInput).position_size_pct
        = 10 ∧
     (calculate_conviction_score defaultEngine tripleStrongInput).max_allocation_pct
        = 15 ∧
     (calculate_conviction_score defaultEngine tripleStrongInput).conviction_score =
        roundTo2 (min 100 (max 0 (weighted_sum defaultEngine tripleStrongInput
          + 15)))) :=
  ⟨countP_tripleStrong, C3_dark_flow_alert tripleStrongInput countP_tripleStrong⟩

theorem map_snd_map_pair {β γ : Type} (l : List (String × β)) (g : String × β → γ) :
    ((l.map fun p => (p.1, g p)).map Prod.snd) = l.map g := by
  induction l with
  | nil => rfl
  | cons p t ih => simp [ih]

theorem default_weights_nonneg : ∀ r ∈ DEFAULT_WEIGHTS, 0 ≤ r.2 := by
  intro r hr
  simp only [DEFAULT_WEIGHTS, List.mem_cons, List.not_mem_nil, or_false] at hr
  rcases hr with rfl|rfl|rfl|rfl|rfl|rfl|rfl|rfl|rfl|rfl <;> norm_num

/-- C5 counterexample: the configured table mapping insider_flow to -0.1
(missing keys filled from defaults) normalizes to a table whose
`insider_flow` weight is −1/7 — a negative loaded weight. -/
theorem C5_counterexample :
    (load_weights (some [("insider_flow", -(1/10))])).lookup "insider_flow"
      = some (-(1/7)) ∧ (-(1/7) : ℚ) < 0 := by
  constructor
  · have htot : ((fill_weights [("insider_flow", -(1/10))]).map Prod.snd).sum
        = 7/10 := by
      simp [fill_weights, DEFAULT_WEIGHTS, List.lookup]
      norm_num
    unfold load_weights
    simp only [Option.getD_some, htot]
    have habs : (1:ℚ)/1000000 < |7/10 - 1| := by
      have h310 : |(7:ℚ)/10 - 1| = 3/10 := by
        rw [abs_of_nonpos (by norm_num)]
        norm_num
      rw [h310]
      norm_num
    rw [if_neg (by norm_num : ¬ ((7:ℚ)/10 ≤ 0)), if_pos habs]
    refine Eq.trans (lookup_map_pair (fill_weights [("insider_flow", -(1/10))])
      (fun _ v => v / (7/10)) "insider_flow") ?_
    have hlk : (fill_weights [("insider_flow", -(1/10))]).lookup "insider_flow"
        = some (-(1/10)) := by
      simp [fill_weights, DEFAULT_WEIGHTS, List.lookup]
    rw [hlk]
    show some ((-(1/10)) / (7/10)) = some (-(1/7))
    norm_num
  · norm_num

/-- C5 (amended): for every configured weight table with non-negative
entries, the loaded weights are non-negative; a filled total `≤ 0` falls
back to the default table; and the loaded weights sum to 1 exactly when
the default table is used or normalization runs (filled total off 1 by
more than 1e-6), while a total within 1e-6 of 1 is kept unnormalized. -/
theorem C5_weights_invariant (raw : List (String × ℚ))
    (hraw : ∀ p ∈ raw, 0 ≤ p.2) :
    (∀ p ∈ load_weights (some raw), 0 ≤ p.2) ∧
    (((fill_weights raw).map Prod.snd).sum ≤ 0 →
        load_weights (some raw) = DEFAULT_WEIGHTS) ∧
    ((load_weights (some raw)).map Prod.snd).sum =
      (if ((fill_weights raw).map Prod.snd).sum ≤ 0 then 1
       else if 1/1000000 < |((fill_weights raw).map Prod.snd).sum - 1| then 1
       else ((fill_weights raw).map Prod.snd).sum) := by
  have hfill : ∀ p ∈ fill_weights raw, 0 ≤ p.2 := by
    intro p hp
    rcases List.mem_map.mp hp with ⟨q, hq, rfl⟩
    rcases hLook : raw.lookup q.1 with _ | v
    · simpa using default_weights_nonneg q hq
    · simpa using hraw (q.1, v) (lookup_some_mem hLook)
  refine ⟨?_, ?_, ?_⟩
  · intro p hp
    unfold load_weights at hp
    simp only [Option.getD_some] at hp
    by_cases h0 : ((fill_weights raw).map Prod.snd).sum ≤ 0
    · rw [if_pos h0] at hp
      exact default_weights_nonneg p hp
    · rw [if_neg h0] at hp
      by_cases habs : 1/1000000 < |((fill_weights raw).map Prod.snd).sum - 1|
      · rw [if_pos habs] at hp
        rcases List.mem_map.mp hp with ⟨q, hq, rfl⟩
        have hq2 : 0 ≤ q.2 := hfill q hq
        have hpos : 0 < ((fill_weights raw).map Prod.snd).sum := not_le.mp h0
        exact div_nonneg hq2 (le_of_lt hpos)
      · rw [if_neg habs] at hp
        exact hfill p hp
  · intro h0
    unfold load_weights
    simp only [Option.getD_some]
    rw [if_pos h0]
  · unfold load_weights
    simp only [Option.getD_some]
    by_cases h0 : ((fill_weights raw).map Prod.snd).sum ≤ 0
    · rw [if_pos h0, if_pos h0, default_weights_sum]
    · rw [if_neg h0, if_neg h0]
      by_cases habs : 1/1000000 < |((fill_weights raw).map Prod.snd).sum - 1|
      · rw [if_pos habs, if_pos habs]
        have hpos : 0 < ((fill_weights raw).map Prod.snd).sum := not_le.mp h0
        have hm : (((fill_weights raw).map fun p =>
            (p.1, p.2 / ((fill_weights raw).map Prod.snd).sum)).map Prod.snd)
            = ((fill_weights raw).map Prod.snd).map
                (fun x => x / ((fill_weights raw).map Prod.snd).sum) := by
          rw [map_snd_map_pair, List.map_map]
          rfl
        rw [hm, sum_map_div, div_self (ne_of_gt hpos)]
      · rw [if_neg habs, if_neg habs]

/-- C5 witness: the amended theorem applied to the non-negative
configured table mapping insider_flow to 0.5. -/
theorem C5_weights_invariant_witness :
    (∀ p ∈ ([("insider_flow", (1:ℚ)/2)] : List (String × ℚ)), 0 ≤ p.2) ∧
    ((∀ p ∈ load_weights (some [("insider_flow", (1:ℚ)/2)]), 0 ≤ p.2) ∧
     (((fill_weights [("insider_flow", (1:ℚ)/2)]).map Prod.snd).sum ≤ 0 →
        load_weights (some [("insider_flow", (1:ℚ)/2)]) = DEFAULT_WEIGHTS) ∧
     ((load_weights (some [("insider_flow", (1:ℚ)/2)])).map Prod.snd).sum =
      (if ((fill_weights [("insider_flow", (1:ℚ)/2)]).map Prod.snd).sum ≤ 0 then 1
       else if 1/1000000 <
          |((fill_weights [("insider_flow", (1:ℚ)/2)]).map Prod.snd).sum - 1| then 1
       else ((fill_weights [("insider_flow", (1:ℚ)/2)]).map Prod.snd).sum)) := by
  have h : ∀ p ∈ ([("insider_flow", (1:ℚ)/2)] : List (String × ℚ)), 0 ≤ p.2 := by
    intro p hp
    simp only [List.mem_cons, List.not_mem_nil, or_false] at hp
    subst hp
    norm_num
  exact ⟨h, C5_weights_invariant _ h⟩

/-- C6 counterexample: an out-of-range input (200) is clamped to 100 in
`signal_scores`, not treated as the neutral value 50. -/
theorem C6_counterexample :
    (calculate_conviction_score defaultEngine
        [("insider_signal_score", PyVal.num 200)]).signal_scores.lookup
        "insider_flow" = some 100 ∧ (100 : ℚ) ≠ 50 := by
  constructor
  · have hkw : ("insider_flow" : String) ∈ defaultEngine.weights.map Prod.fst := by
      rw [defaultEngine_weights]
      simp [DEFAULT_WEIGHTS]
    show (signal_scores_of defaultEngine _).lookup "insider_flow" = some 100
    unfold signal_scores_of
    refine Eq.trans (lookup_map_fst defaultEngine.weights
      (fun x => roundTo2 (get_signal_score
        [("insider_signal_score", PyVal.num 200)] x)) "insider_flow" hkw) ?_
    have h1 : get_signal_score [("insider_signal_score", PyVal.num 200)]
        "insider_flow" = 100 := by
      simp [get_signal_score, WEIGHT_TO_SCORE_KEY, List.lookup] <;> norm_num
    simp only [h1]
    norm_num [roundTo2, roundHalfEven]
  · norm_num

/-- C6 (amended): `calculate_conviction_score` is total (never raises);
a non-numeric value for a score key is treated as the neutral 50, while
an out-of-range numeric value is clamped into `[0,100]` (the stored
`signal_scores` entry is the clamped value rounded to two decimals). -/
theorem C6_malformed_input (stock_data : StockData) (wk sk : String)
    (hsk : WEIGHT_TO_SCORE_KEY.lookup wk = some sk)
    (hwk : wk ∈ defaultEngine.weights.map Prod.fst) :
    (stock_data.lookup sk = some PyVal.nonNum →
       (calculate_conviction_score defaultEngine stock_data).signal_scores.lookup wk
         = some NEUTRAL_SCORE) ∧
    (∀ q : ℚ, stock_data.lookup sk = some (PyVal.num q) →
       (calculate_conviction_score defaultEngine stock_data).signal_scores.lookup wk
         = some (roundTo2 (max 0 (min 100 q)))) := by
  have hbase : (calculate_conviction_score defaultEngine
      stock_data).signal_scores.lookup wk
      = some (roundTo2 (get_signal_score stock_data wk)) := by
    show (signal_scores_of defaultEngine stock_data).lookup wk = _
    unfold signal_scores_of
    exact lookup_map_fst defaultEngine.weights
      (fun x => roundTo2 (get_signal_score stock_data x)) wk hwk
  constructor
  · intro hnn
    rw [hbase]
    have hgssv : get_signal_score stock_data wk = NEUTRAL_SCORE := by
      unfold get_signal_score
      split
      · rfl
      · rename_i sk' heq
        rw [hsk] at heq
        injection heq with heq
        subst heq
        simp only [hnn]
    rw [hgssv, roundTo2_neutral]
  · intro q hq
    rw [hbase]
    have hgssv : get_signal_score stock_data wk = max 0 (min 100 q) := by
      unfold get_signal_score
      split
      · rename_i heq
        rw [hsk] at heq
        exact Option.noConfusion heq
      · rename_i sk' heq
        rw [hsk] at heq
        injection heq with heq
        subst heq
        simp only [hq]
    rw [hgssv]

/-- C6 witness: the amended theorem applied at a non-numeric
`insider_signal_score`, yielding the neutral 50 entry. -/
theorem C6_malformed_input_witness :
    (WEIGHT_TO_SCORE_KEY.lookup "insider_flow" = some "insider_signal_score") ∧
    ("insider_flow" ∈ defaultEngine.weights.map Prod.fst) ∧
    (([("insider_signal_score", PyVal.nonNum)] : StockData).lookup
        "insider_signal_score" = some PyVal.nonNum) ∧
    ((calculate_conviction_score defaultEngine
        [("insider_signal_score", PyVal.nonNum)]).signal_scores.lookup
        "insider_flow" = some NEUTRAL_SCORE) := by
  have h1 : WEIGHT_TO_SCORE_KEY.lookup "insider_flow"
      = some "insider_signal_score" := by
    simp [WEIGHT_TO_SCORE_KEY, List.lookup]
  have h2 : ("insider_flow" : String) ∈ defaultEngine.weights.map Prod.fst := by
    rw [defaultEngine_weights]
    simp [DEFAULT_WEIGHTS]
  have h3 : ([("insider_signal_score", PyVal.nonNum)] : StockData).lookup
      "insider_signal_score" = some PyVal.nonNum := by
    simp [List.lookup]
  exact ⟨h1, h2, h3,
    (C6_malformed_input [("insider_signal_score", PyVal.nonNum)]
      "insider_flow" "insider_signal_score" h1 h2).1 h3⟩

/-- C7: the `analyze_stock` of every producer, when its data-fetch/parse layer
fails, returns its documented neutral-baseline result (dark pool 30 with
an error tag, congress 0 with an error tag, FTD 10, insider 0 with an
error tag, options 40, social 0 with an error tag), for every possible
success-path scorer; the embedded functions are total, so no exception
reaches the caller. -/
theorem C7_producer_neutral_on_failure :
    (∀ (β : Type) (score_signals : String → List β → DarkPool.DarkPoolResult)
        (exc : DarkPool.DarkPoolExc) (ticker : String),
        (DarkPool.analyze_stock score_signals (.error exc)
            ticker).darkpool_signal_score = 30 ∧
        (DarkPool.analyze_stock score_signals (.error exc)
            ticker).error.isSome = true) ∧
    (∀ (τ : Type) (score_ticker : String → List τ → Congress.CongressResult)
        (e ticker : String),
        Congress.analyze_stock score_ticker (.error e) ticker
          = Congress.neutral_result ticker.toUpper.trim (some e) ∧
        (Congress.analyze_stock score_ticker (.error e)
            ticker).congress_signal_score = 0) ∧
    (∀ (thr : ℚ) (ftd_cache : List (String × List FTD.FtdRecord))
        (short_volume_cache : List (String × List FTD.ShortRecord))
        (e ticker : String),
        FTD.analyze_stock thr ftd_cache short_volume_cache (.error e) ticker
          = FTD.neutral_result ∧
        (FTD.analyze_stock thr ftd_cache short_volume_cache (.error e)
            ticker).ftd_signal_score = 10) ∧
    (∀ (τ : Type) (analyze_rest : List τ → InsiderFlow.InsiderResult τ)
        (err : String) (transactions : List τ),
        InsiderFlow.analyze_stock analyze_rest (.error err) transactions
          = InsiderFlow.neutral_result (some err) ∧
        (InsiderFlow.analyze_stock analyze_rest (.error err)
            transactions).insider_signal_score = 0) ∧
    (∀ (τ : Type) (analyze_contracts : List τ → OptionsFlow.OptionsResult τ)
        (api_key_present : Bool) (e : String),
        OptionsFlow.analyze_stock analyze_contracts api_key_present (.error e)
          = OptionsFlow.neutral_result ∧
        (OptionsFlow.analyze_stock analyze_contracts api_key_present
            (Except.error e)).options_signal_score = 40) ∧
    (∀ (τ : Type) (score_ticker : String → τ → Social.SocialResult)
        (ticker : String),
        Social.analyze_stock score_ticker (none : Option τ) ticker
          = Social.neutral_result (some "apewisdom_unavailable") ∧
        (Social.analyze_stock score_ticker (none : Option τ)
            ticker).social_signal_score = 0) := by
  refine ⟨?_, ?_, ?_, ?_, ?_, ?_⟩
  · intro β score exc t
    cases exc <;> exact ⟨rfl, rfl⟩
  · intro τ score e t
    exact ⟨rfl, rfl⟩
  · intro thr fc sc e t
    exact ⟨rfl, rfl⟩
  · intro τ rest err txs
    exact ⟨rfl, rfl⟩
  · intro τ ac key e
    cases key <;> exact ⟨rfl, rfl⟩
  · intro τ score t
    exact ⟨rfl, rfl⟩

/-- C9: the reported `short_squeeze_potential` of a built FTD/short
signal is true iff the delivery-failure spike ratio is at or above the
spike threshold, the estimated days-to-cover is at least 2, and the
short-ratio trend is decreasing (covering) — all three simultaneously. -/
theorem C9_squeeze_iff (spike_threshold : ℚ)
    (ftd_cache : List (String × List FTD.FtdRecord))
    (short_volume_cache : List (String × List FTD.ShortRecord))
    (ticker : String) :
    ((FTD.build_signal spike_threshold ftd_cache short_volume_cache
        ticker).short_squeeze_potential = true) ↔
      (spike_threshold ≤ (FTD.analyze_ftd
          ((ftd_cache.lookup ticker).getD [])).spike_ratio ∧
       2 ≤ (FTD.analyze_short_interest
          ((short_volume_cache.lookup ticker).getD [])).days_to_cover ∧
       (FTD.analyze_short_interest
          ((short_volume_cache.lookup ticker).getD [])).ratio_trend =
         FTD.Trend.decreasing) := by
  show (FTD.detect_squeeze_potential spike_threshold
      (FTD.analyze_ftd ((ftd_cache.lookup ticker).getD []))
      (FTD.analyze_short_interest ((short_volume_cache.lookup ticker).getD [])))
      = true ↔ _
  unfold FTD.detect_squeeze_potential
  simp [Bool.and_eq_true, decide_eq_true_eq, ge_iff_le, and_assoc]

/-- C10: the loaded weight table always has exactly the ten default
source keys in order; a configured entry with a key outside the default
vocabulary changes nothing; and a default key missing from the configured
table inherits its default weight before normalization. -/
theorem C10_weight_vocabulary (raw : List (String × ℚ)) :
    ((load_weights (some raw)).map Prod.fst = DEFAULT_WEIGHTS.map Prod.fst) ∧
    (∀ (k : String) (v : ℚ), k ∉ DEFAULT_WEIGHTS.map Prod.fst →
       load_weights (some ((k, v) :: raw)) = load_weights (some raw)) ∧
    (∀ k : String, raw.lookup k = none →
       (fill_weights raw).lookup k = DEFAULT_WEIGHTS.lookup k) := by
  refine ⟨?_, ?_, ?_⟩
  · unfold load_weights
    simp only [Option.getD_some]
    by_cases h0 : ((fill_weights raw).map Prod.snd).sum ≤ 0
    · rw [if_pos h0]
    · rw [if_neg h0]
      by_cases habs : 1/1000000 < |((fill_weights raw).map Prod.snd).sum - 1|
      · rw [if_pos habs, map_fst_map_keep]
        unfold fill_weights
        rw [map_fst_map_keep]
      · rw [if_neg habs]
        unfold fill_weights
        rw [map_fst_map_keep]
  · intro k v hk
    have hfw : fill_weights ((k, v) :: raw) = fill_weights raw := by
      unfold fill_weights
      apply List.map_congr_left
      intro p hp
      have hne : p.1 ≠ k := by
        intro he
        exact hk (he ▸ List.mem_map_of_mem Prod.fst hp)
      have hbeq : (p.1 == k) = false := beq_eq_false_iff_ne.mpr hne
      simp [List.lookup, hbeq]
    unfold load_weights
    simp only [Option.getD_some, hfw]
  · intro k hnone
    unfold fill_weights
    refine Eq.trans (lookup_map_pair DEFAULT_WEIGHTS
      (fun a b => (raw.lookup a).getD b) k) ?_
    simp [hnone]

/-- C10 witness: an out-of-vocabulary key `bogus` is ignored, and the
missing key `dark_pool` inherits its default weight. -/
theorem C10_weight_vocabulary_witness :
    (("bogus" : String) ∉ DEFAULT_WEIGHTS.map Prod.fst) ∧
    (load_weights (some (("bogus", (7:ℚ)) :: [("insider_flow", (1:ℚ)/2)]))
       = load_weights (some [("insider_flow", (1:ℚ)/2)])) ∧
    (([("insider_flow", (1:ℚ)/2)] : List (String × ℚ)).lookup "dark_pool"
       = none) ∧
    ((fill_weights [("insider_flow", (1:ℚ)/2)]).lookup "dark_pool"
       = DEFAULT_WEIGHTS.lookup "dark_pool") := by
  have h1 : ("bogus" : String) ∉ DEFAULT_WEIGHTS.map Prod.fst := by
    simp [DEFAULT_WEIGHTS]
  have h2 : ([("insider_flow", (1:ℚ)/2)] : List (String × ℚ)).lookup "dark_pool"
      = none := by
    simp [List.lookup]
  exact ⟨h1, (C10_weight_vocabulary [("insider_flow", (1:ℚ)/2)]).2.1 "bogus" 7 h1,
    h2, (C10_weight_vocabulary [("insider_flow", (1:ℚ)/2)]).2.2 "dark_pool" h2⟩

theorem filterMap_ne_nil_iff_any {α β : Type} (l : List α) (f : α → Option β) :
    (l.filterMap f ≠ []) ↔ (l.any fun a => (f a).isSome) = true := by
  induction l with
  | nil => simp
  | cons a t ih =>
    rcases hfa : f a with _ | b
    · simp [List.filterMap_cons, hfa, ih]
    · simp [List.filterMap_cons, hfa]

/-- C8: the function `assess_risk` classifies by the risk points of the
claim — high iff they reach 3, medium iff they are in [1, 3), low iff
they are 0. -/
theorem C8_assess_risk (stock_data : StockData) :
    (assess_risk stock_data = RiskLevel.high ↔
       3 ≤ claimRiskPoints stock_data) ∧
    (assess_risk stock_data = RiskLevel.medium ↔
       1 ≤ claimRiskPoints stock_data ∧ claimRiskPoints stock_data < 3) ∧
    (assess_risk stock_data = RiskLevel.low ↔ claimRiskPoints stock_data = 0) := by
  have hbullpt : ∀ p : String × String,
      ((match safe_float (stock_data.lookup p.1) with
        | none => none
        | some v => if v > 60 then some p.2 else none) : Option String).isSome
      = (match safe_float (stock_data.lookup p.1) with
        | none => false
        | some v => decide (v > 60)) := by
    intro p
    rcases hsf : safe_float (stock_data.lookup p.1) with _ | v
    · rfl
    · by_cases h : v > 60 <;> simp [h]
  have hbearpt : ∀ p : String × String,
      ((match safe_float (stock_data.lookup p.1) with
        | none => none
        | some v => if v > 60 then none else if v < 40 then some p.2 else none) :
          Option String).isSome
      = (match safe_float (stock_data.lookup p.1) with
        | none => false
        | some v => decide (v < 40)) := by
    intro p
    rcases hsf : safe_float (stock_data.lookup p.1) with _ | v
    · rfl
    · by_cases h1 : v > 60
      · have h2 : ¬ (v < 40) := by linarith
        simp [h1, h2]
      · by_cases h2 : v < 40 <;> simp [h1, h2]
  have hbull : ((signal_pairs.filterMap fun p =>
      match safe_float (stock_data.lookup p.1) with
      | none => none
      | some v => if v > 60 then some p.2 else none) ≠ []) ↔
      ((signal_pairs.any fun p =>
        match safe_float (stock_data.lookup p.1) with
        | none => false
        | some v => decide (v > 60)) = true) := by
    rw [filterMap_ne_nil_iff_any]
    simp only [hbullpt]
  have hbear : ((signal_pairs.filterMap fun p =>
      match safe_float (stock_data.lookup p.1) with
      | none => none
      | some v => if v > 60 then none else if v < 40 then some p.2 else none)
        ≠ []) ↔
      ((signal_pairs.any fun p =>
        match safe_float (stock_data.lookup p.1) with
        | none => false
        | some v => decide (v < 40)) = true) := by
    rw [filterMap_ne_nil_iff_any]
    simp only [hbearpt]
  have key : assess_risk stock_data =
      (if claimRiskPoints stock_data ≥ 3 then RiskLevel.high
       else if claimRiskPoints stock_data ≥ 1 then RiskLevel.medium
       else RiskLevel.low) := by
    unfold assess_risk claimRiskPoints
    simp only [hbull, hbear]
  refine ⟨?_, ?_, ?_⟩ <;> rw [key] <;>
    by_cases h3 : 3 ≤ claimRiskPoints stock_data <;>
    by_cases h1 : 1 ≤ claimRiskPoints stock_data <;>
    simp [h3, h1, ge_iff_le] <;> omega
